import Mathlib

/-!
Shallow embedding of the request-dispatch layer of `src/server.py`
(class `ZoteroMCPServer`): JSON-like values, the Zotero backend client
as an oracle, the resource/tool handlers, the per-request dispatcher
`_process_request`, and the stdin loop `run`.
-/

namespace ZoteroMCP

/-- Values exchanged over the JSON-RPC boundary (Python dict/list/str/int/bool/None). -/
inductive JVal where
  | jNull
  | jBool (b : Bool)
  | jNum (n : Int)
  | jStr (s : String)
  | jArr (xs : List JVal)
  | jObj (fields : List (String × JVal))

/-- Python `==` against a string literal: true iff the value is that string. -/
def JVal.isStrEq (v : JVal) (s : String) : Bool :=
  match v with
  | .jStr t => t = s
  | _ => false

/-- Python truthiness (`if x:`). Empty containers, empty string, 0, None, False are falsy. -/
def JVal.truthy : JVal → Bool
  | .jNull => false
  | .jBool b => b
  | .jNum n => n ≠ 0
  | .jStr s => s ≠ ""
  | .jArr xs => !xs.isEmpty
  | .jObj fs => !fs.isEmpty

/-- Assoc-list lookup for object fields (Python dicts have unique keys, so
first match is the match). -/
def lookupField : List (String × JVal) → String → Option JVal
  | [], _ => none
  | (k, v) :: rest, key => if k = key then some v else lookupField rest key

/-- Python `d[key] = v` on a dict's field list: update the existing key in
place, else append. -/
def setField : List (String × JVal) → String → JVal → List (String × JVal)
  | [], key, v => [(key, v)]
  | (k, w) :: rest, key, v =>
    if k = key then (key, v) :: rest else (k, w) :: setField rest key v

/-- Object field access on a `JVal` (returns `none` when not an object or absent). -/
def JVal.get (v : JVal) (key : String) : Option JVal :=
  match v with
  | .jObj fs => lookupField fs key
  | _ => none

/-- Python `d.get(key, default)`; raises `AttributeError` on a non-dict. -/
def pyDictGet (v : JVal) (key : String) (dflt : JVal) : Except String JVal :=
  match v with
  | .jObj fs => .ok ((lookupField fs key).getD dflt)
  | _ => .error "AttributeError: get"

/-- Python `d[key]`; raises `KeyError` when absent, `TypeError` on a non-dict. -/
def pyIndexKey (v : JVal) (key : String) : Except String JVal :=
  match v with
  | .jObj fs =>
    match lookupField fs key with
    | some x => .ok x
    | none => .error ("KeyError: " ++ key)
  | _ => .error "TypeError: not subscriptable"

/-- Python `s.split(sep)` for a one-character separator, on character
lists: keeps empty pieces, so `"a//b"` splits into `["a", "", "b"]`. -/
def pySplitList (sep : Char) : List Char → List (List Char)
  | [] => [[]]
  | c :: rest =>
    if c = sep then [] :: pySplitList sep rest
    else
      match pySplitList sep rest with
      | [] => [[c]]
      | piece :: pieces => (c :: piece) :: pieces

/-- Python `s.split(sep)` on strings (the source only splits on `"/"`). -/
def pySplit (s : String) (sep : Char) : List String :=
  (pySplitList sep s.toList).map (fun cs => String.mk cs)

/-- Occurrence of `pat` as a contiguous sublist. -/
def hasSubList (pat : List Char) : List Char → Bool
  | [] => pat.isEmpty
  | c :: rest => List.isPrefixOf pat (c :: rest) || hasSubList pat rest

/-- Python substring test `pat in s`. -/
def strContains (s pat : String) : Bool :=
  hasSubList pat.toList s.toList

/-- Python `s.startswith(pre)`. -/
def pyStartsWith (s pre : String) : Bool :=
  List.isPrefixOf pre.toList s.toList

/-- Python `s.endswith(suf)`. -/
def pyEndsWith (s suf : String) : Bool :=
  List.isSuffixOf suf.toList s.toList

/-- Python `key in container` (membership test); raises `TypeError` on
non-container values. -/
def pyContains (container : JVal) (key : String) : Except String Bool :=
  match container with
  | .jObj fs => .ok (fs.any (fun p => p.1 = key))
  | .jArr xs => .ok (xs.any (fun x => x.isStrEq key))
  | .jStr s => .ok (strContains s key)
  | _ => .error "TypeError: argument is not iterable"

mutual
/-- Abstract stand-in for `json.dumps`: a plain serializer of `JVal`
(indentation of the source's `indent=2` is not modelled; no claim depends
on the concrete serialized text). -/
def jdump : JVal → String
  | .jNull => "null"
  | .jBool true => "true"
  | .jBool false => "false"
  | .jNum n => toString n
  | .jStr s => "\"" ++ s ++ "\""
  | .jArr xs => "[" ++ jdumpList xs ++ "]"
  | .jObj fs => "\x7b" ++ jdumpFields fs ++ "\x7d"

/-- Serialize a list of values, comma separated. -/
def jdumpList : List JVal → String
  | [] => ""
  | [x] => jdump x
  | x :: y :: rest => jdump x ++ ", " ++ jdumpList (y :: rest)

/-- Serialize object fields, comma separated. -/
def jdumpFields : List (String × JVal) → String
  | [] => ""
  | [(k, v)] => "\"" ++ k ++ "\": " ++ jdump v
  | (k, v) :: p :: rest => "\"" ++ k ++ "\": " ++ jdump v ++ ", " ++ jdumpFields (p :: rest)
end

/-- Python `str(v)` as used in f-strings (`f"Unknown tool: \x7btool_name\x7d"`). -/
def pyStr : JVal → String
  | .jNull => "None"
  | .jBool true => "True"
  | .jBool false => "False"
  | .jNum n => toString n
  | .jStr s => s
  | .jArr xs => "[" ++ jdumpList xs ++ "]"
  | .jObj fs => "\x7b" ++ jdumpFields fs ++ "\x7d"

/-- One call to a method of the pyzotero client `self.zot`, with the
arguments the dispatcher passed. -/
inductive ZCall where
  | collections
  | top (limit : Nat)
  | itemsRecent (limit : Nat) (sort direction : String)
  | collectionItems (key : String)
  | itemGet (key : String)
  | itemCitation (key style : JVal)
  | itemsSearch (q limit : JVal)
  | collectionItemsTop (key q limit : JVal)
  | itemTemplate (itemType : JVal)
  | createItems (payload : JVal)
  | addtoCollection (collKey itemKeys : JVal)
  | bibliography (keys style : JVal)

/-- The backend client as an oracle: each call either returns a value or
raises (transport/auth error), modelled by `Except`. -/
def Zot : Type := ZCall → Except String JVal

/-- Error object the handlers return inside their result
(`\x7b"error": \x7b"code": c, "message": m\x7d\x7d`). -/
def errResult (code : Int) (msg : String) : JVal :=
  .jObj [("error", .jObj [("code", .jNum code), ("message", .jStr msg)])]

/-- Result of a successful resource read:
`\x7b"contents": [\x7b"uri", "mimeType", "text"\x7d]\x7d`. -/
def contentsResult (uri mime : String) (text : JVal) : JVal :=
  .jObj [("contents", .jArr [.jObj
    [("uri", .jStr uri), ("mimeType", .jStr mime), ("text", text)]])]

/-- Result of a successful tool call: `\x7b"content": [\x7b"type": "text", "text"\x7d]\x7d`. -/
def contentResult (text : JVal) : JVal :=
  .jObj [("content", .jArr [.jObj [("type", .jStr "text"), ("text", text)]])]

/-- Error returned by both handlers when `self.zot` is `None`. -/
def zotNotInitResult : JVal :=
  errResult (-32000) "Zotero client not initialized. Check API credentials."

/-- Body of `_handle_read_resource` for a string URI, inside the `try`
block: the outcome is `.error e` when a Python exception escapes (a backend
call raised, or list indexing failed), paired with the backend calls made. -/
def readResourceStr (z : Zot) (uri : String) : Except String JVal × List ZCall :=
  if uri = "zotero://collections" then
    match z .collections with
    | .ok collections =>
      (.ok (contentsResult uri "application/json" (.jStr (jdump collections))), [.collections])
    | .error e => (.error e, [.collections])
  else if uri = "zotero://items/top" then
    match z (.top 50) with
    | .ok items =>
      (.ok (contentsResult uri "application/json" (.jStr (jdump items))), [.top 50])
    | .error e => (.error e, [.top 50])
  else if uri = "zotero://items/recent" then
    match z (.itemsRecent 20 "dateModified" "desc") with
    | .ok items =>
      (.ok (contentsResult uri "application/json" (.jStr (jdump items))),
        [.itemsRecent 20 "dateModified" "desc"])
    | .error e => (.error e, [.itemsRecent 20 "dateModified" "desc"])
  else if pyStartsWith uri "zotero://collections/" && pyEndsWith uri "/items" then
    -- collection_key = uri.split("/")[2]
    match (pySplit uri '/').get? 2 with
    | some collection_key =>
      match z (.collectionItems collection_key) with
      | .ok items =>
        (.ok (contentsResult uri "application/json" (.jStr (jdump items))),
          [.collectionItems collection_key])
      | .error e => (.error e, [.collectionItems collection_key])
    | none => (.error "IndexError: list index out of range", [])
  else if pyStartsWith uri "zotero://items/" && strContains uri "/citation/" then
    -- parts = uri.split("/"); item_key = parts[2]; style = parts[4]
    match (pySplit uri '/').get? 2, (pySplit uri '/').get? 4 with
    | some item_key, some style =>
      match z (.itemCitation (.jStr item_key) (.jStr style)) with
      | .ok citation =>
        (.ok (contentsResult uri "text/plain" citation),
          [.itemCitation (.jStr item_key) (.jStr style)])
      | .error e => (.error e, [.itemCitation (.jStr item_key) (.jStr style)])
    | _, _ => (.error "IndexError: list index out of range", [])
  else if pyStartsWith uri "zotero://items/" && (pySplit uri '/').length = 3 then
    match (pySplit uri '/').get? 2 with
    | some item_key =>
      match z (.itemGet item_key) with
      | .ok item =>
        (.ok (contentsResult uri "application/json" (.jStr (jdump item))),
          [.itemGet item_key])
      | .error e => (.error e, [.itemGet item_key])
    | none => (.error "IndexError: list index out of range", [])
  else
    (.ok (errResult (-32602) ("Resource not found: " ++ uri)), [])

/-- Body of `_handle_read_resource` inside the `try` block for an arbitrary
`uri` value: a non-string URI fails both `==` comparisons and then raises
`AttributeError` at `uri.startswith`. -/
def readResourceBody (z : Zot) (uri : JVal) : Except String JVal × List ZCall :=
  match uri with
  | .jStr s => readResourceStr z s
  | _ => (.error "AttributeError: startswith", [])

/-- The handler `_handle_read_resource`: gets `params.uri` (raising on a
non-dict `params`, before the `try`), fails fast when `self.zot` is `None`,
and otherwise runs the body with every in-`try` exception converted to the
`-32000` error result. -/
def handleReadResource (zot : Option Zot) (params : JVal) :
    Except String (JVal × List ZCall) :=
  match pyDictGet params "uri" .jNull with
  | .error e => .error e
  | .ok uri =>
    match zot with
    | none => .ok (zotNotInitResult, [])
    | some z =>
      match readResourceBody z uri with
      | (.ok result, tr) => .ok (result, tr)
      | (.error e, tr) => .ok (errResult (-32000) ("Error reading resource: " ++ e), tr)

/-- Tool body for `search_items` inside the `try` block. -/
def searchItemsTool (z : Zot) (args : JVal) : Except String JVal × List ZCall :=
  match pyContains args "query" with
  | .error e => (.error e, [])
  | .ok hasQuery =>
    if !hasQuery then
      (.ok (errResult (-32602) "Missing required parameter: query"), [])
    else
      match pyIndexKey args "query" with
      | .error e => (.error e, [])
      | .ok query =>
        match pyDictGet args "collection_key" .jNull with
        | .error e => (.error e, [])
        | .ok collection_key =>
          match pyDictGet args "limit" (.jNum 20) with
          | .error e => (.error e, [])
          | .ok limit =>
            if collection_key.truthy then
              match z (.collectionItemsTop collection_key query limit) with
              | .error e => (.error e, [.collectionItemsTop collection_key query limit])
              | .ok items =>
                (.ok (contentResult (.jStr (jdump
                  (.jObj [("query", query), ("results", items)])))),
                  [.collectionItemsTop collection_key query limit])
            else
              match z (.itemsSearch query limit) with
              | .error e => (.error e, [.itemsSearch query limit])
              | .ok items =>
                (.ok (contentResult (.jStr (jdump
                  (.jObj [("query", query), ("results", items)])))),
                  [.itemsSearch query limit])

/-- Tool body for `get_citation` inside the `try` block. -/
def getCitationTool (z : Zot) (args : JVal) : Except String JVal × List ZCall :=
  match pyContains args "item_key" with
  | .error e => (.error e, [])
  | .ok hasKey =>
    if !hasKey then
      (.ok (errResult (-32602) "Missing required parameter: item_key"), [])
    else
      match pyIndexKey args "item_key" with
      | .error e => (.error e, [])
      | .ok item_key =>
        match pyDictGet args "style" (.jStr "apa") with
        | .error e => (.error e, [])
        | .ok style =>
          match z (.itemCitation item_key style) with
          | .error e => (.error e, [.itemCitation item_key style])
          | .ok citation =>
            (.ok (contentResult citation), [.itemCitation item_key style])

/-- Template mutation sequence of `add_item`: set the title, set the
creators when truthy, then write every `additional_fields` pair in order
(no key filtering). -/
def buildItemFields (tmpl : List (String × JVal)) (title creators : JVal)
    (afs : List (String × JVal)) : List (String × JVal) :=
  let t1 := setField tmpl "title" title
  let t2 := if creators.truthy then setField t1 "creators" creators else t1
  afs.foldl (fun acc p => setField acc p.1 p.2) t2

/-- Tool body for `add_item` inside the `try` block. -/
def addItemTool (z : Zot) (args : JVal) : Except String JVal × List ZCall :=
  match pyContains args "item_type" with
  | .error e => (.error e, [])
  | .ok hasType =>
    if !hasType then
      (.ok (errResult (-32602) "Missing required parameters: item_type and title"), [])
    else
      match pyContains args "title" with
      | .error e => (.error e, [])
      | .ok hasTitle =>
        if !hasTitle then
          (.ok (errResult (-32602) "Missing required parameters: item_type and title"), [])
        else
          match pyIndexKey args "item_type",  pyIndexKey args "title",
              pyDictGet args "creators" (.jArr []),
              pyDictGet args "collection_key" .jNull,
              pyDictGet args "additional_fields" (.jObj []) with
          | .ok item_type, .ok title, .ok creators, .ok collection_key,
              .ok additional_fields =>
            -- template = self.zot.item_template(item_type)
            (match z (.itemTemplate item_type) with
            | .error e => (.error e, [.itemTemplate item_type])
            | .ok template =>
              match template with
              | .jObj tmplFields =>
                match additional_fields with
                | .jObj afs =>
                  (match z (.createItems (.jArr
                      [.jObj (buildItemFields tmplFields title creators afs)])) with
                  | .error e =>
                    (.error e, [.itemTemplate item_type, .createItems (.jArr
                      [.jObj (buildItemFields tmplFields title creators afs)])])
                  | .ok response =>
                    -- if collection_key and response.get("success"):
                    if collection_key.truthy then
                      match pyDictGet response "success" .jNull with
                      | .error e =>
                        (.error e, [.itemTemplate item_type, .createItems (.jArr
                          [.jObj (buildItemFields tmplFields title creators afs)])])
                      | .ok succ =>
                        if succ.truthy then
                          -- item_key = response["successful"]["0"]["key"]
                          match (pyIndexKey response "successful" >>= fun s =>
                              pyIndexKey s "0" >>= fun z0 => pyIndexKey z0 "key") with
                          | .error e =>
                            (.error e, [.itemTemplate item_type, .createItems (.jArr
                              [.jObj (buildItemFields tmplFields title creators afs)])])
                          | .ok item_key =>
                            match z (.addtoCollection collection_key (.jArr [item_key])) with
                            | .error e =>
                              (.error e,
                                [.itemTemplate item_type,
                                 .createItems (.jArr
                                   [.jObj (buildItemFields tmplFields title creators afs)]),
                                 .addtoCollection collection_key (.jArr [item_key])])
                            | .ok _ =>
                              (.ok (contentResult (.jStr (jdump response))),
                                [.itemTemplate item_type,
                                 .createItems (.jArr
                                   [.jObj (buildItemFields tmplFields title creators afs)]),
                                 .addtoCollection collection_key (.jArr [item_key])])
                        else
                          (.ok (contentResult (.jStr (jdump response))),
                            [.itemTemplate item_type, .createItems (.jArr
                              [.jObj (buildItemFields tmplFields title creators afs)])])
                    else
                      (.ok (contentResult (.jStr (jdump response))),
                        [.itemTemplate item_type, .createItems (.jArr
                          [.jObj (buildItemFields tmplFields title creators afs)])]))
                | _ => (.error "AttributeError: items", [.itemTemplate item_type])
              | _ => (.error "TypeError: item assignment", [.itemTemplate item_type]))
          | .error e, _, _, _, _ => (.error e, [])
          | _, .error e, _, _, _ => (.error e, [])
          | _, _, .error e, _, _ => (.error e, [])
          | _, _, _, .error e, _ => (.error e, [])
          | _, _, _, _, .error e => (.error e, [])

/-- Tool body for `get_bibliography` inside the `try` block. -/
def getBibliographyTool (z : Zot) (args : JVal) : Except String JVal × List ZCall :=
  match pyContains args "item_keys" with
  | .error e => (.error e, [])
  | .ok hasKeys =>
    if !hasKeys then
      (.ok (errResult (-32602) "Missing required parameter: item_keys"), [])
    else
      match pyIndexKey args "item_keys" with
      | .error e => (.error e, [])
      | .ok item_keys =>
        match pyDictGet args "style" (.jStr "apa") with
        | .error e => (.error e, [])
        | .ok style =>
          match z (.bibliography item_keys style) with
          | .error e => (.error e, [.bibliography item_keys style])
          | .ok bib => (.ok (contentResult bib), [.bibliography item_keys style])

/-- Body of `_handle_call_tool` inside the `try` block: dispatch on the
tool name, with the unknown-tool fallthrough. -/
def callToolBody (z : Zot) (tool_name args : JVal) : Except String JVal × List ZCall :=
  if tool_name.isStrEq "search_items" then searchItemsTool z args
  else if tool_name.isStrEq "get_citation" then getCitationTool z args
  else if tool_name.isStrEq "add_item" then addItemTool z args
  else if tool_name.isStrEq "get_bibliography" then getBibliographyTool z args
  else (.ok (errResult (-32601) ("Unknown tool: " ++ pyStr tool_name)), [])

/-- The handler `_handle_call_tool`: gets `params.name` and
`params.arguments` (raising on a non-dict `params`, before the `try`),
fails fast when `self.zot` is `None`, and otherwise runs the body with
every in-`try` exception converted to the `-32000` error result. -/
def handleCallTool (zot : Option Zot) (params : JVal) :
    Except String (JVal × List ZCall) :=
  match pyDictGet params "name" .jNull with
  | .error e => .error e
  | .ok tool_name =>
    match pyDictGet params "arguments" (.jObj []) with
    | .error e => .error e
    | .ok args =>
      match zot with
      | none => .ok (zotNotInitResult, [])
      | some z =>
        match callToolBody z tool_name args with
        | (.ok result, tr) => .ok (result, tr)
        | (.error e, tr) => .ok (errResult (-32000) ("Error calling tool: " ++ e), tr)

/-- Result of `_handle_list_resources`: the three static resource descriptors. -/
def listResourcesResult : JVal :=
  .jObj [("resources", .jArr
    [ .jObj [("uri", .jStr "zotero://collections"),
             ("name", .jStr "Zotero Collections"),
             ("mimeType", .jStr "application/json"),
             ("description", .jStr "List of collections in the Zotero library")],
      .jObj [("uri", .jStr "zotero://items/top"),
             ("name", .jStr "Top-Level Items"),
             ("mimeType", .jStr "application/json"),
             ("description", .jStr "Top-level items in the Zotero library")],
      .jObj [("uri", .jStr "zotero://items/recent"),
             ("name", .jStr "Recent Items"),
             ("mimeType", .jStr "application/json"),
             ("description", .jStr "Recently added or modified items in the Zotero library")]])]

/-- Result of `_handle_list_resource_templates`: the three URI template descriptors. -/
def listResourceTemplatesResult : JVal :=
  .jObj [("resourceTemplates", .jArr
    [ .jObj [("uriTemplate", .jStr "zotero://collections/\x7bcollection_key\x7d/items"),
             ("name", .jStr "Collection Items"),
             ("mimeType", .jStr "application/json"),
             ("description", .jStr "Items in a specific Zotero collection")],
      .jObj [("uriTemplate", .jStr "zotero://items/\x7bitem_key\x7d"),
             ("name", .jStr "Item Details"),
             ("mimeType", .jStr "application/json"),
             ("description", .jStr "Details of a specific Zotero item")],
      .jObj [("uriTemplate", .jStr "zotero://items/\x7bitem_key\x7d/citation/\x7bstyle\x7d"),
             ("name", .jStr "Item Citation"),
             ("mimeType", .jStr "text/plain"),
             ("description", .jStr "Citation for a specific Zotero item in a specific style")]])]

/-- String property descriptor used in the tool input schemas. -/
def strProp (desc : String) : JVal :=
  .jObj [("type", .jStr "string"), ("description", .jStr desc)]

/-- String property descriptor with a default, as in the schemas for `style`. -/
def strPropDefault (desc dflt : String) : JVal :=
  .jObj [("type", .jStr "string"), ("description", .jStr desc), ("default", .jStr dflt)]

/-- Result of `_handle_list_tools`: the four tool descriptors of the source. -/
def listToolsResult : JVal :=
  .jObj [("tools", .jArr
    [ .jObj [("name", .jStr "search_items"),
             ("description", .jStr "Search for items in the Zotero library"),
             ("inputSchema", .jObj
               [("type", .jStr "object"),
                ("properties", .jObj
                  [("query", strProp "Search query"),
                   ("collection_key", strProp "Collection key to search in (optional)"),
                   ("limit", .jObj [("type", .jStr "number"),
                     ("description", .jStr "Maximum number of results to return")])]),
                ("required", .jArr [.jStr "query"])])],
      .jObj [("name", .jStr "get_citation"),
             ("description", .jStr "Get citation for a specific item"),
             ("inputSchema", .jObj
               [("type", .jStr "object"),
                ("properties", .jObj
                  [("item_key", strProp "Item key"),
                   ("style", strPropDefault "Citation style (e.g., apa, mla, chicago)" "apa")]),
                ("required", .jArr [.jStr "item_key"])])],
      .jObj [("name", .jStr "add_item"),
             ("description", .jStr "Add a new item to the Zotero library"),
             ("inputSchema", .jObj
               [("type", .jStr "object"),
                ("properties", .jObj
                  [("item_type", strProp "Item type (e.g., journal, book, webpage)"),
                   ("title", strProp "Item title"),
                   ("creators", .jObj
                     [("type", .jStr "array"),
                      ("description", .jStr "Item creators (authors, editors, etc.)"),
                      ("items", .jObj
                        [("type", .jStr "object"),
                         ("properties", .jObj
                           [("creatorType", strProp "Creator type (e.g., author, editor)"),
                            ("firstName", strProp "Creator first name"),
                            ("lastName", strProp "Creator last name")]),
                         ("required", .jArr [.jStr "creatorType", .jStr "lastName"])])]),
                   ("collection_key", strProp "Collection key to add the item to (optional)"),
                   ("additional_fields", .jObj
                     [("type", .jStr "object"),
                      ("description",
                        .jStr "Additional fields for the item (e.g., date, url, publisher)")])]),
                ("required", .jArr [.jStr "item_type", .jStr "title"])])],
      .jObj [("name", .jStr "get_bibliography"),
             ("description", .jStr "Get bibliography for multiple items"),
             ("inputSchema", .jObj
               [("type", .jStr "object"),
                ("properties", .jObj
                  [("item_keys", .jObj
                     [("type", .jStr "array"),
                      ("description", .jStr "Array of item keys"),
                      ("items", .jObj [("type", .jStr "string")])]),
                   ("style", strPropDefault "Citation style (e.g., apa, mla, chicago)" "apa")]),
                ("required", .jArr [.jStr "item_keys"])])]])]

/-- The `name` fields of a descriptor list, in order. -/
def descriptorNames (v : JVal) (listKey : String) : List JVal :=
  match v.get listKey with
  | some (.jArr ds) => ds.filterMap (fun d => d.get "name")
  | _ => []

/-- Environment truthiness of `os.getenv` results (`if not self.api_key`):
unset (`None`) and the empty string are falsy. -/
def envTruthy : Option String → Bool
  | none => false
  | some s => s ≠ ""

/-- The constructor call `zotero.Zotero(library_id, library_type, api_key)`
as an oracle: it either yields a client or raises. -/
def ZotMk : Type := String → String → String → Except String Zot

/-- The method `_init_zotero_client`: no API key means no client; a user id
takes priority over a group id; neither id means no client; a constructor
exception leaves the client `None`. -/
def initZoteroClient (api_key user_id group_id : Option String) (mk : ZotMk) :
    Option Zot :=
  if !envTruthy api_key then none
  else
    match api_key with
    | none => none
    | some key =>
      if envTruthy user_id then
        match user_id with
        | some uid =>
          match mk uid "user" key with
          | .ok z => some z
          | .error _ => none
        | none => none
      else if envTruthy group_id then
        match group_id with
        | some gid =>
          match mk gid "group" key with
          | .ok z => some z
          | .error _ => none
        | none => none
      else none

/-- JSON-RPC success envelope `\x7b"jsonrpc", "result", "id"\x7d`. -/
def resultEnvelope (result requestId : JVal) : JVal :=
  .jObj [("jsonrpc", .jStr "2.0"), ("result", result), ("id", requestId)]

/-- JSON-RPC error envelope `\x7b"jsonrpc", "error", "id"\x7d`. -/
def errEnvelope (code : Int) (msg : String) (requestId : JVal) : JVal :=
  .jObj [("jsonrpc", .jStr "2.0"),
         ("error", .jObj [("code", .jNum code), ("message", .jStr msg)]),
         ("id", requestId)]

/-- Dispatch on the method name, as in the body of `_process_request` after
the three `request.get` reads (`self.jsonrpc_id` has already been set to
`request_id`): wraps handler results in the success envelope, answers an
unknown method with the `-32601` error envelope. The first component is
`.error` when a Python exception escapes a handler. -/
def dispatchMethod (zot : Option Zot) (method params request_id : JVal) :
    Except String JVal × JVal × List ZCall :=
  if method.isStrEq "list_resources" then
    (.ok (resultEnvelope listResourcesResult request_id), request_id, [])
  else if method.isStrEq "list_resource_templates" then
    (.ok (resultEnvelope listResourceTemplatesResult request_id), request_id, [])
  else if method.isStrEq "read_resource" then
    match handleReadResource zot params with
    | .ok (result, tr) => (.ok (resultEnvelope result request_id), request_id, tr)
    | .error e => (.error e, request_id, [])
  else if method.isStrEq "list_tools" then
    (.ok (resultEnvelope listToolsResult request_id), request_id, [])
  else if method.isStrEq "call_tool" then
    match handleCallTool zot params with
    | .ok (result, tr) => (.ok (resultEnvelope result request_id), request_id, tr)
    | .error e => (.error e, request_id, [])
  else
    (.ok (errEnvelope (-32601) ("Method not found: " ++ pyStr method) request_id),
      request_id, [])

/-- The method `_process_request`: reads `method`, `params` and `id` from the
request (raising on a non-dict request, before `self.jsonrpc_id` is
updated), stores the id, and dispatches. Returns the outcome (`.error` =
escaped Python exception), the stored `jsonrpc_id` after the call, and the
backend calls made. -/
def processRequest (zot : Option Zot) (jid : JVal) (request : JVal) :
    Except String JVal × JVal × List ZCall :=
  match pyDictGet request "method" .jNull with
  | .error e => (.error e, jid, [])
  | .ok method =>
    match pyDictGet request "params" (.jObj []), pyDictGet request "id" .jNull with
    | .ok params, .ok request_id =>
      -- self.jsonrpc_id = request_id
      dispatchMethod zot method params request_id
    | .error e, _ => (.error e, jid, [])
    | _, .error e => (.error e, jid, [])

/-- Outcome of reading and JSON-decoding one stdin line: an empty (stripped)
line, a line on which `json.loads` raises with the given message, or a
successfully parsed value. -/
inductive RawLine where
  | blank
  | bad (msg : String)
  | ok (v : JVal)

/-- One iteration of the `run` loop: possibly emit a response, and carry the
`jsonrpc_id` state. Blank lines are skipped (`continue`); a decode failure
or an exception escaping `_process_request` is answered with the `-32000`
internal error carrying the current `self.jsonrpc_id`. -/
def step (zot : Option Zot) (jid : JVal) (line : RawLine) :
    Option JVal × JVal × List ZCall :=
  match line with
  | .blank => (none, jid, [])
  | .bad msg => (some (errEnvelope (-32000) ("Internal error: " ++ msg) jid), jid, [])
  | .ok request =>
    match processRequest zot jid request with
    | (.ok response, jid2, tr) => (some response, jid2, tr)
    | (.error e, jid2, tr) =>
      (some (errEnvelope (-32000) ("Internal error: " ++ e) jid2), jid2, tr)

/-- The `run` loop over a finite stream of input lines: the list of emitted
responses, in emission order. The server starts with `self.jsonrpc_id = 0`. -/
def runLines (zot : Option Zot) (jid : JVal) : List RawLine → List JVal
  | [] => []
  | line :: rest =>
    match step zot jid line with
    | (none, jid2, _) => runLines zot jid2 rest
    | (some r, jid2, _) => r :: runLines zot jid2 rest

/-- Lines that count as request units: anything that is not a skipped blank
line. -/
def isRequestUnit : RawLine → Bool
  | .blank => false
  | _ => true

/-- Well-formedness of an emitted response unit: the JSON-RPC version tag,
an `id` field, and exactly one of `result`/`error`. -/
def wellFormedResponse (r : JVal) : Bool :=
  (match r.get "jsonrpc" with
   | some v => v.isStrEq "2.0"
   | none => false) &&
  (r.get "id").isSome &&
  ((r.get "result").isSome != (r.get "error").isSome)

/-! Backend stubs used to instantiate theorems at concrete inputs. -/

/-- A backend whose every call raises with the given message. -/
def constErrZot (msg : String) : Zot := fun _ => .error msg

/-- A backend whose every call returns the given value. -/
def constOkZot (v : JVal) : Zot := fun _ => .ok v

/-- A backend scripted for `add_item`: a fixed item template, a fixed
`create_items` response, and a scripted outcome for `addto_collection`. -/
def mkAddItemZot (tmpl createResp : JVal) (assoc : Except String JVal) : Zot := fun c =>
  match c with
  | .itemTemplate _ => .ok tmpl
  | .createItems _ => .ok createResp
  | .addtoCollection _ _ => assoc
  | _ => .error "unexpected call"

/-- The pyzotero `create_items` success response shape the source indexes
into: `response["successful"]["0"]["key"]`. -/
def createOkResponse (k : String) : JVal :=
  .jObj [("success", .jBool true),
         ("successful", .jObj [("0", .jObj [("key", .jStr k)])])]

/-- Parameters of a `call_tool` request for `add_item` with an item type, a
title and a collection key. -/
def addItemParams (t ti ck : String) : JVal :=
  .jObj [("name", .jStr "add_item"),
         ("arguments", .jObj [("item_type", .jStr t), ("title", .jStr ti),
                              ("collection_key", .jStr ck)])]

/-! Helper lemmas about the embedded structures. -/

/-- A key absent from an object is seen as absent by Python's `in`. -/
theorem lookupField_eq_none_any (l : List (String × JVal)) (k : String)
    (h : lookupField l k = none) : l.any (fun p => p.1 = k) = false := by
  induction l with
  | nil => rfl
  | cons p rest ih =>
    unfold lookupField at h
    by_cases hk : p.1 = k
    · simp [hk] at h
    · have hr : lookupField rest k = none := by simpa [hk] using h
      simp [List.any_cons, hk, ih hr]

/-- Field access on the success envelope finds the echoed id. -/
theorem resultEnvelope_get_id (r i : JVal) : (resultEnvelope r i).get "id" = some i := rfl

/-- Field access on the error envelope finds the echoed id. -/
theorem errEnvelope_get_id (c : Int) (m : String) (i : JVal) :
    (errEnvelope c m i).get "id" = some i := rfl

/-- Field access on a handler error result finds the error object. -/
theorem errResult_get_error (c : Int) (m : String) :
    (errResult c m).get "error" = some (.jObj [("code", .jNum c), ("message", .jStr m)]) := rfl

/-- Both envelopes are well-formed response units. -/
theorem wellFormed_resultEnvelope (r i : JVal) :
    wellFormedResponse (resultEnvelope r i) = true := rfl

/-- The error envelope is a well-formed response unit. -/
theorem wellFormed_errEnvelope (c : Int) (m : String) (i : JVal) :
    wellFormedResponse (errEnvelope c m i) = true := rfl

/-- The dispatcher stores the request id as the new `jsonrpc_id`. -/
theorem dispatchMethod_jid (zot : Option Zot) (m p i : JVal) :
    (dispatchMethod zot m p i).2.1 = i := by
  unfold dispatchMethod
  repeat' split
  all_goals rfl

/-- Every response the dispatcher produces without raising carries the
request id. -/
theorem dispatchMethod_ok_id (zot : Option Zot) (m p i r : JVal)
    (h : (dispatchMethod zot m p i).1 = .ok r) : r.get "id" = some i := by
  unfold dispatchMethod at h
  repeat' split at h
  all_goals first
    | (injection h with h'; subst h'; rfl)
    | (exact absurd h (by simp))

/-- Every response the dispatcher produces without raising is one of the
two envelopes, built over the request id. -/
theorem dispatchMethod_ok_shape (zot : Option Zot) (m p i r : JVal)
    (h : (dispatchMethod zot m p i).1 = .ok r) :
    (∃ res, r = resultEnvelope res i) ∨ (∃ c msg, r = errEnvelope c msg i) := by
  unfold dispatchMethod at h
  repeat' split at h
  all_goals first
    | (injection h with h'; subst h'; first
        | exact Or.inl ⟨_, rfl⟩
        | exact Or.inr ⟨_, _, rfl⟩)
    | (exact absurd h (by simp))

/-- One loop iteration on a parsed object request emits a response carrying
that request's id (`request.get("id")`, defaulting to null). -/
theorem step_obj_id (zot : Option Zot) (jid : JVal) (fields : List (String × JVal)) :
    ∃ r, (step zot jid (.ok (.jObj fields))).1 = some r ∧
      r.get "id" = some ((lookupField fields "id").getD .jNull) := by
  have hpr : processRequest zot jid (.jObj fields)
      = dispatchMethod zot ((lookupField fields "method").getD .jNull)
          ((lookupField fields "params").getD (.jObj []))
          ((lookupField fields "id").getD .jNull) := rfl
  simp only [step, hpr]
  set i := (lookupField fields "id").getD JVal.jNull with hi
  rcases hd : dispatchMethod zot ((lookupField fields "method").getD .jNull)
      ((lookupField fields "params").getD (.jObj [])) i with ⟨out, jid2, tr⟩
  have hj : jid2 = i := by
    have hq := dispatchMethod_jid zot ((lookupField fields "method").getD .jNull)
      ((lookupField fields "params").getD (.jObj [])) i
    rw [hd] at hq; exact hq
  cases out with
  | ok r => exact ⟨r, rfl, dispatchMethod_ok_id zot _ _ i r (by rw [hd])⟩
  | error e =>
    subst hj
    exact ⟨errEnvelope (-32000) ("Internal error: " ++ e) i, rfl, errEnvelope_get_id _ _ _⟩

/-- Unfolding one loop iteration: the emitted response (if any) is followed
by the processing of the remaining lines — the loop always continues. -/
theorem runLines_cons (zot : Option Zot) (jid : JVal) (line : RawLine) (rest : List RawLine) :
    runLines zot jid (line :: rest)
      = ((step zot jid line).1).toList ++ runLines zot (step zot jid line).2.1 rest := by
  rcases h : step zot jid line with ⟨emit, jid2, tr⟩
  cases emit with
  | none => simp only [runLines, h, Option.toList, List.nil_append]
  | some r => simp only [runLines, h, Option.toList, List.cons_append, List.nil_append]

/-- Every non-blank line makes the loop emit a response. -/
theorem step_emits_of_unit (zot : Option Zot) (jid : JVal) (line : RawLine)
    (h : isRequestUnit line = true) : ((step zot jid line).1).isSome = true := by
  cases line with
  | blank => simp [isRequestUnit] at h
  | bad msg => simp [step]
  | ok v =>
    rcases hp : processRequest zot jid v with ⟨out, jid2, tr⟩
    cases out <;> simp [step, hp]

/-- The loop emits exactly one response per request unit. -/
theorem runLines_length (zot : Option Zot) (jid : JVal) (lines : List RawLine) :
    (runLines zot jid lines).length = (lines.filter isRequestUnit).length := by
  induction lines generalizing jid with
  | nil => rfl
  | cons line rest ih =>
    rw [runLines_cons]
    cases hline : line with
    | blank => simp [step, List.filter, isRequestUnit, ih]
    | bad msg => simp [step, List.filter, isRequestUnit, ih]
    | ok v =>
      have hs := step_emits_of_unit zot jid (.ok v) rfl
      rcases ho : (step zot jid (.ok v)).1 with _ | r
      · rw [ho] at hs; simp at hs
      · simp [ho, List.filter, isRequestUnit, ih]

/-- Every response one loop iteration emits is well-formed. -/
theorem step_emit_wellFormed (zot : Option Zot) (jid : JVal) (line : RawLine) (r : JVal)
    (h : (step zot jid line).1 = some r) : wellFormedResponse r = true := by
  cases line with
  | blank => simp [step] at h
  | bad msg =>
    simp only [step] at h
    injection h with h'
    subst h'
    exact wellFormed_errEnvelope _ _ _
  | ok v =>
    cases v with
    | jObj fields =>
      have hpr : processRequest zot jid (.jObj fields)
          = dispatchMethod zot ((lookupField fields "method").getD .jNull)
              ((lookupField fields "params").getD (.jObj []))
              ((lookupField fields "id").getD .jNull) := rfl
      simp only [step, hpr] at h
      rcases hd : dispatchMethod zot ((lookupField fields "method").getD .jNull)
          ((lookupField fields "params").getD (.jObj []))
          ((lookupField fields "id").getD .jNull) with ⟨out, jid2, tr⟩
      rw [hd] at h
      cases out with
      | ok resp =>
        have hshape := dispatchMethod_ok_shape zot _ _ _ resp (by rw [hd])
        injection h with h'
        rw [← h']
        rcases hshape with ⟨res, hr⟩ | ⟨c, msg, hr⟩
        · rw [hr]; exact wellFormed_resultEnvelope _ _
        · rw [hr]; exact wellFormed_errEnvelope _ _ _
      | error e =>
        injection h with h'
        subst h'
        exact wellFormed_errEnvelope _ _ _
    | jNull =>
      simp only [step, processRequest, pyDictGet] at h
      injection h with h'; subst h'; exact wellFormed_errEnvelope _ _ _
    | jBool b =>
      simp only [step, processRequest, pyDictGet] at h
      injection h with h'; subst h'; exact wellFormed_errEnvelope _ _ _
    | jNum n =>
      simp only [step, processRequest, pyDictGet] at h
      injection h with h'; subst h'; exact wellFormed_errEnvelope _ _ _
    | jStr s =>
      simp only [step, processRequest, pyDictGet] at h
      injection h with h'; subst h'; exact wellFormed_errEnvelope _ _ _
    | jArr xs =>
      simp only [step, processRequest, pyDictGet] at h
      injection h with h'; subst h'; exact wellFormed_errEnvelope _ _ _

/-- Every response the loop ever emits is well-formed. -/
theorem runLines_wellFormed (zot : Option Zot) (jid : JVal) (lines : List RawLine) (r : JVal)
    (h : r ∈ runLines zot jid lines) : wellFormedResponse r = true := by
  induction lines generalizing jid with
  | nil => simp [runLines] at h
  | cons line rest ih =>
    rcases hs : step zot jid line with ⟨emit, jid2, tr⟩
    cases emit with
    | none =>
      simp only [runLines, hs] at h
      exact ih jid2 h
    | some r0 =>
      simp only [runLines, hs] at h
      rcases List.mem_cons.mp h with h0 | h0
      · subst h0
        exact step_emit_wellFormed zot jid line r (by rw [hs])
      · exact ih jid2 h0

/-- Every non-error result of the resource-read body carries a singleton
`contents` array. -/
theorem readResourceStr_success_shape (z : Zot) (uri : String) (out : JVal) (tr : List ZCall)
    (h : readResourceStr z uri = (.ok out, tr)) (hsucc : out.get "error" = none) :
    ∃ c, out.get "contents" = some (.jArr [c]) := by
  unfold readResourceStr at h
  repeat' split at h
  all_goals (rw [Prod.mk.injEq] at h; obtain ⟨h1, h2⟩ := h)
  all_goals first
    | exact Except.noConfusion h1
    | (injection h1 with h1'; subst h1'; exact ⟨_, rfl⟩)
    | (injection h1 with h1'; subst h1';
       rw [errResult_get_error] at hsucc; exact Option.noConfusion hsucc)

/-- Lift of `readResourceStr_success_shape` to arbitrary URI values. -/
theorem readResourceBody_success_shape (z : Zot) (uri out : JVal) (tr : List ZCall)
    (h : readResourceBody z uri = (.ok out, tr)) (hsucc : out.get "error" = none) :
    ∃ c, out.get "contents" = some (.jArr [c]) := by
  unfold readResourceBody at h
  split at h
  · exact readResourceStr_success_shape _ _ _ _ h hsucc
  · rw [Prod.mk.injEq] at h
    obtain ⟨h1, h2⟩ := h
    exact Except.noConfusion h1

/-- Every non-error result of the `search_items` tool carries a singleton
`content` array. -/
theorem searchItemsTool_success_shape (z : Zot) (args out : JVal) (tr : List ZCall)
    (h : searchItemsTool z args = (.ok out, tr)) (hsucc : out.get "error" = none) :
    ∃ c, out.get "content" = some (.jArr [c]) := by
  unfold searchItemsTool at h
  repeat' split at h
  all_goals (rw [Prod.mk.injEq] at h; obtain ⟨h1, h2⟩ := h)
  all_goals first
    | exact Except.noConfusion h1
    | (injection h1 with h1'; subst h1'; exact ⟨_, rfl⟩)
    | (injection h1 with h1'; subst h1';
       rw [errResult_get_error] at hsucc; exact Option.noConfusion hsucc)

/-- Every non-error result of the `get_citation` tool carries a singleton
`content` array. -/
theorem getCitationTool_success_shape (z : Zot) (args out : JVal) (tr : List ZCall)
    (h : getCitationTool z args = (.ok out, tr)) (hsucc : out.get "error" = none) :
    ∃ c, out.get "content" = some (.jArr [c]) := by
  unfold getCitationTool at h
  repeat' split at h
  all_goals (rw [Prod.mk.injEq] at h; obtain ⟨h1, h2⟩ := h)
  all_goals first
    | exact Except.noConfusion h1
    | (injection h1 with h1'; subst h1'; exact ⟨_, rfl⟩)
    | (injection h1 with h1'; subst h1';
       rw [errResult_get_error] at hsucc; exact Option.noConfusion hsucc)

/-- Every non-error result of the `add_item` tool carries a singleton
`content` array. -/
theorem addItemTool_success_shape (z : Zot) (args out : JVal) (tr : List ZCall)
    (h : addItemTool z args = (.ok out, tr)) (hsucc : out.get "error" = none) :
    ∃ c, out.get "content" = some (.jArr [c]) := by
  unfold addItemTool at h
  repeat' split at h
  all_goals (rw [Prod.mk.injEq] at h; obtain ⟨h1, h2⟩ := h)
  all_goals first
    | exact Except.noConfusion h1
    | (injection h1 with h1'; subst h1'; exact ⟨_, rfl⟩)
    | (injection h1 with h1'; subst h1';
       rw [errResult_get_error] at hsucc; exact Option.noConfusion hsucc)

/-- Every non-error result of the `get_bibliography` tool carries a
singleton `content` array. -/
theorem getBibliographyTool_success_shape (z : Zot) (args out : JVal) (tr : List ZCall)
    (h : getBibliographyTool z args = (.ok out, tr)) (hsucc : out.get "error" = none) :
    ∃ c, out.get "content" = some (.jArr [c]) := by
  unfold getBibliographyTool at h
  repeat' split at h
  all_goals (rw [Prod.mk.injEq] at h; obtain ⟨h1, h2⟩ := h)
  all_goals first
    | exact Except.noConfusion h1
    | (injection h1 with h1'; subst h1'; exact ⟨_, rfl⟩)
    | (injection h1 with h1'; subst h1';
       rw [errResult_get_error] at hsucc; exact Option.noConfusion hsucc)

/-- Every non-error result of the tool-dispatch body carries a singleton
`content` array. -/
theorem callToolBody_success_shape (z : Zot) (tn args out : JVal) (tr : List ZCall)
    (h : callToolBody z tn args = (.ok out, tr)) (hsucc : out.get "error" = none) :
    ∃ c, out.get "content" = some (.jArr [c]) := by
  unfold callToolBody at h
  split at h
  · exact searchItemsTool_success_shape z args out tr h hsucc
  · split at h
    · exact getCitationTool_success_shape z args out tr h hsucc
    · split at h
      · exact addItemTool_success_shape z args out tr h hsucc
      · split at h
        · exact getBibliographyTool_success_shape z args out tr h hsucc
        · rw [Prod.mk.injEq] at h
          obtain ⟨h1, h2⟩ := h
          injection h1 with h1'
          subst h1'
          rw [errResult_get_error] at hsucc
          exact Option.noConfusion hsucc

/-- Every successful `call_tool` response carries a singleton `content`
array. -/
theorem handleCallTool_success_shape (zot : Option Zot) (params out : JVal) (tr : List ZCall)
    (h : handleCallTool zot params = .ok (out, tr)) (hsucc : out.get "error" = none) :
    ∃ c, out.get "content" = some (.jArr [c]) := by
  unfold handleCallTool at h
  repeat' split at h
  all_goals first
    | exact Except.noConfusion h
    | (injection h with h'
       rw [Prod.mk.injEq] at h'
       obtain ⟨h1, h2⟩ := h'
       subst h1
       first
         | exact callToolBody_success_shape _ _ _ _ _ (by assumption) hsucc
         | simp [zotNotInitResult, errResult, JVal.get, lookupField] at hsucc)

/-- Every successful `read_resource` response carries a singleton
`contents` array. -/
theorem handleReadResource_success_shape (zot : Option Zot) (params out : JVal) (tr : List ZCall)
    (h : handleReadResource zot params = .ok (out, tr)) (hsucc : out.get "error" = none) :
    ∃ c, out.get "contents" = some (.jArr [c]) := by
  unfold handleReadResource at h
  repeat' split at h
  all_goals first
    | exact Except.noConfusion h
    | (injection h with h'
       rw [Prod.mk.injEq] at h'
       obtain ⟨h1, h2⟩ := h'
       subst h1
       first
         | exact readResourceBody_success_shape _ _ _ _ (by assumption) hsucc
         | simp [zotNotInitResult, errResult, JVal.get, lookupField] at hsucc)

/-- Lookup distributes over append, preferring the left list. -/
theorem lookupField_append (l1 l2 : List (String × JVal)) (k : String) :
    lookupField (l1 ++ l2) k = ((lookupField l1 k).or (lookupField l2 k)) := by
  induction l1 with
  | nil => simp [lookupField]
  | cons p rest ih =>
    by_cases hk : p.1 = k
    · simp [lookupField, hk]
    · simp [lookupField, hk, ih]

/-- Appending a differently-keyed pair does not change a key-presence test. -/
theorem any_append_single (l : List (String × JVal)) (k k0 : String) (v0 : JVal)
    (hne : k0 ≠ k) :
    (l ++ [(k0, v0)]).any (fun p => p.1 = k) = l.any (fun p => p.1 = k) := by
  simp [List.any_append, hne]

/-- A key present in an object is seen as present by Python's `in`. -/
theorem lookupField_eq_some_any (l : List (String × JVal)) (k : String) (x : JVal)
    (h : lookupField l k = some x) : l.any (fun p => p.1 = k) = true := by
  induction l with
  | nil => exact Option.noConfusion h
  | cons p rest ih =>
    unfold lookupField at h
    by_cases hk : p.1 = k
    · simp [List.any_cons, hk]
    · rw [if_neg hk] at h
      simp [List.any_cons, ih h]

/-- Setting a key makes lookup find the new value. -/
theorem lookupField_setField_self (l : List (String × JVal)) (k : String) (v : JVal) :
    lookupField (setField l k v) k = some v := by
  induction l with
  | nil => simp [setField, lookupField]
  | cons p rest ih =>
    by_cases hk : p.1 = k
    · simp [setField, hk, lookupField]
    · simp [setField, hk, lookupField, ih]

/-- Setting a key leaves other keys' lookups unchanged. -/
theorem lookupField_setField_other (l : List (String × JVal)) (k k' : String) (v : JVal)
    (hne : k' ≠ k) : lookupField (setField l k v) k' = lookupField l k' := by
  induction l with
  | nil => simp [setField, lookupField, Ne.symm hne]
  | cons p rest ih =>
    rcases p with ⟨pk, pv⟩
    by_cases hk : pk = k
    · subst hk
      simp [setField, lookupField, Ne.symm hne]
    · by_cases hk' : pk = k'
      · simp [setField, hk, lookupField, hk', hne]
      · simp [setField, hk, lookupField, hk', ih]

/-- Writing a run of fields whose keys all differ from `k` does not change
`k`'s lookup. -/
theorem lookupField_writeFields_notin (afs : List (String × JVal))
    (base : List (String × JVal)) (k : String) (h : ∀ p ∈ afs, p.1 ≠ k) :
    lookupField (afs.foldl (fun acc p => setField acc p.1 p.2) base) k
      = lookupField base k := by
  induction afs generalizing base with
  | nil => rfl
  | cons p rest ih =>
    rw [List.foldl_cons]
    rw [ih (setField base p.1 p.2) (fun q hq => h q (List.mem_cons_of_mem p hq))]
    exact lookupField_setField_other base p.1 k p.2
      (fun he => h p (List.mem_cons_self p rest) he.symm)

/-- After writing all `additional_fields` pairs, the last binding of a key
in that run wins over whatever the template held. -/
theorem lookupField_writeFields_last (l1 l2 : List (String × JVal))
    (base : List (String × JVal)) (k : String) (v : JVal)
    (h2 : ∀ p ∈ l2, p.1 ≠ k) :
    lookupField ((l1 ++ (k, v) :: l2).foldl (fun acc p => setField acc p.1 p.2) base) k
      = some v := by
  rw [List.foldl_append, List.foldl_cons]
  rw [lookupField_writeFields_notin l2 _ k h2]
  exact lookupField_setField_self _ k v

/-- Every key written in the `additional_fields` run is present afterwards:
no key is filtered out. -/
theorem lookupField_writeFields_mem (afs : List (String × JVal))
    (base : List (String × JVal)) (k : String)
    (h : ∃ v, (k, v) ∈ afs) :
    ∃ w, lookupField (afs.foldl (fun acc p => setField acc p.1 p.2) base) k = some w := by
  induction afs generalizing base with
  | nil =>
    rcases h with ⟨v, hv⟩
    exact absurd hv (List.not_mem_nil _)
  | cons p rest ih =>
    rw [List.foldl_cons]
    rcases h with ⟨v, hv⟩
    rcases List.mem_cons.mp hv with h0 | h0
    · subst h0
      by_cases hr : ∃ w, (k, w) ∈ rest
      · exact ih (setField base k v) hr
      · have hnot : ∀ q ∈ rest, q.1 ≠ k := by
          intro q hq he
          exact hr ⟨q.2, by rcases q with ⟨qk, qv⟩; cases he; exact hq⟩
        rw [lookupField_writeFields_notin rest _ k hnot]
        exact ⟨v, lookupField_setField_self base k v⟩
    · exact ih (setField base p.1 p.2) ⟨v, h0⟩

/-- Omitting `style` in `get_citation` behaves like passing `style="apa"`. -/
theorem getCitationTool_style_default (z : Zot) (fields : List (String × JVal))
    (h : lookupField fields "style" = none) :
    getCitationTool z (.jObj fields)
      = getCitationTool z (.jObj (fields ++ [("style", .jStr "apa")])) := by
  unfold getCitationTool
  have hc : pyContains (.jObj (fields ++ [("style", .jStr "apa")])) "item_key"
      = pyContains (.jObj fields) "item_key" := by
    simp [pyContains, any_append_single, show "style" ≠ "item_key" by decide]
  have hik : pyIndexKey (.jObj (fields ++ [("style", .jStr "apa")])) "item_key"
      = pyIndexKey (.jObj fields) "item_key" := by
    simp [pyIndexKey, lookupField_append, lookupField,
      show ¬("style" = "item_key") by decide]
  have hst : pyDictGet (.jObj (fields ++ [("style", .jStr "apa")])) "style" (.jStr "apa")
      = pyDictGet (.jObj fields) "style" (.jStr "apa") := by
    simp [pyDictGet, lookupField_append, lookupField, h]
  rw [hc, hik, hst]

/-- Omitting `style` in `get_bibliography` behaves like passing
`style="apa"`. -/
theorem getBibliographyTool_style_default (z : Zot) (fields : List (String × JVal))
    (h : lookupField fields "style" = none) :
    getBibliographyTool z (.jObj fields)
      = getBibliographyTool z (.jObj (fields ++ [("style", .jStr "apa")])) := by
  unfold getBibliographyTool
  have hc : pyContains (.jObj (fields ++ [("style", .jStr "apa")])) "item_keys"
      = pyContains (.jObj fields) "item_keys" := by
    simp [pyContains, any_append_single, show "style" ≠ "item_keys" by decide]
  have hik : pyIndexKey (.jObj (fields ++ [("style", .jStr "apa")])) "item_keys"
      = pyIndexKey (.jObj fields) "item_keys" := by
    simp [pyIndexKey, lookupField_append, lookupField,
      show ¬("style" = "item_keys") by decide]
  have hst : pyDictGet (.jObj (fields ++ [("style", .jStr "apa")])) "style" (.jStr "apa")
      = pyDictGet (.jObj fields) "style" (.jStr "apa") := by
    simp [pyDictGet, lookupField_append, lookupField, h]
  rw [hc, hik, hst]

/-- Omitting `limit` in `search_items` behaves like passing `limit=20`. -/
theorem searchItemsTool_limit_default (z : Zot) (fields : List (String × JVal))
    (h : lookupField fields "limit" = none) :
    searchItemsTool z (.jObj fields)
      = searchItemsTool z (.jObj (fields ++ [("limit", .jNum 20)])) := by
  unfold searchItemsTool
  have hc : pyContains (.jObj (fields ++ [("limit", .jNum 20)])) "query"
      = pyContains (.jObj fields) "query" := by
    simp [pyContains, any_append_single, show "limit" ≠ "query" by decide]
  have hik : pyIndexKey (.jObj (fields ++ [("limit", .jNum 20)])) "query"
      = pyIndexKey (.jObj fields) "query" := by
    simp [pyIndexKey, lookupField_append, lookupField,
      show ¬("limit" = "query") by decide]
  have hck : pyDictGet (.jObj (fields ++ [("limit", .jNum 20)])) "collection_key" .jNull
      = pyDictGet (.jObj fields) "collection_key" .jNull := by
    simp [pyDictGet, lookupField_append, lookupField,
      show ¬("limit" = "collection_key") by decide]
  have hlim : pyDictGet (.jObj (fields ++ [("limit", .jNum 20)])) "limit" (.jNum 20)
      = pyDictGet (.jObj fields) "limit" (.jNum 20) := by
    simp [pyDictGet, lookupField_append, lookupField, h]
  rw [hc, hik, hck, hlim]

/-- With `style` omitted, the backend receives the citation call with
`style="apa"`: the default is applied before the adapter is invoked. -/
theorem getCitationTool_default_trace (z : Zot) (fields : List (String × JVal)) (k : JVal)
    (hst : lookupField fields "style" = none)
    (hik : lookupField fields "item_key" = some k) :
    (getCitationTool z (.jObj fields)).2 = [ZCall.itemCitation k (.jStr "apa")] := by
  unfold getCitationTool
  have hc := lookupField_eq_some_any fields "item_key" k hik
  simp only [pyContains, hc, pyIndexKey, hik, pyDictGet, hst, Option.getD,
    Bool.not_true, Bool.false_eq_true, if_false]
  cases z (.itemCitation k (.jStr "apa")) <;> rfl

/-- C1: the dispatcher does NOT extract the placeholder values from the
URI's path segments. Because `uri.split("/")` keeps the empty piece between
the two slashes of `zotero://`, index 2 is the constant segment after the
scheme: for `zotero://items/ABC123/citation/apa` the citation handler is
invoked with `item_key="items"` and `style="citation"` (never "ABC123" and
"apa"); for `zotero://collections/ABC/items` the collection-items handler
receives the constant `"collections"`; and the `zotero://items/{item_key}`
template can never match, since its guard requires a 3-piece split while
any such URI splits into at least 4 pieces, so the item-details URI answers
resource-not-found. This theorem evaluates the code at those inputs. -/
theorem claim_C1_uri_template_extraction (z : Zot) :
    (readResourceStr z "zotero://items/ABC123/citation/apa").2
        = [ZCall.itemCitation (.jStr "items") (.jStr "citation")]
    ∧ (readResourceStr z "zotero://collections/ABC/items").2
        = [ZCall.collectionItems "collections"]
    ∧ (readResourceStr z "zotero://items/ABC123").1
        = .ok (errResult (-32602) "Resource not found: zotero://items/ABC123") := by
  refine ⟨?_, ?_, rfl⟩
  · have h : readResourceStr z "zotero://items/ABC123/citation/apa"
        = (match z (.itemCitation (.jStr "items") (.jStr "citation")) with
           | .ok citation =>
             (.ok (contentsResult "zotero://items/ABC123/citation/apa" "text/plain" citation),
               [ZCall.itemCitation (.jStr "items") (.jStr "citation")])
           | .error e =>
             (.error e, [ZCall.itemCitation (.jStr "items") (.jStr "citation")])) := rfl
    rw [h]
    cases z (.itemCitation (.jStr "items") (.jStr "citation")) <;> rfl
  · have h : readResourceStr z "zotero://collections/ABC/items"
        = (match z (.collectionItems "collections") with
           | .ok items =>
             (.ok (contentsResult "zotero://collections/ABC/items" "application/json"
                (.jStr (jdump items))), [ZCall.collectionItems "collections"])
           | .error e => (.error e, [ZCall.collectionItems "collections"])) := rfl
    rw [h]
    cases z (.collectionItems "collections") <;> rfl

/-- C2: for each of the four registered tools, a `call_tool` request whose
arguments lack a required key (query; item_key; item_type or title;
item_keys) answers the `-32602` error naming the missing key, with an
empty backend-call trace — the backend adapter is never invoked. The last
conjunct checks that each error message contains the missing key's name. -/
theorem claim_C2_missing_required_args (z : Zot) (fields : List (String × JVal)) :
    (lookupField fields "query" = none →
      handleCallTool (some z)
          (.jObj [("name", .jStr "search_items"), ("arguments", .jObj fields)])
        = .ok (errResult (-32602) "Missing required parameter: query", []))
    ∧ (lookupField fields "item_key" = none →
      handleCallTool (some z)
          (.jObj [("name", .jStr "get_citation"), ("arguments", .jObj fields)])
        = .ok (errResult (-32602) "Missing required parameter: item_key", []))
    ∧ ((lookupField fields "item_type" = none ∨ lookupField fields "title" = none) →
      handleCallTool (some z)
          (.jObj [("name", .jStr "add_item"), ("arguments", .jObj fields)])
        = .ok (errResult (-32602) "Missing required parameters: item_type and title", []))
    ∧ (lookupField fields "item_keys" = none →
      handleCallTool (some z)
          (.jObj [("name", .jStr "get_bibliography"), ("arguments", .jObj fields)])
        = .ok (errResult (-32602) "Missing required parameter: item_keys", []))
    ∧ (strContains "Missing required parameter: query" "query"
        && strContains "Missing required parameter: item_key" "item_key"
        && strContains "Missing required parameters: item_type and title" "item_type"
        && strContains "Missing required parameters: item_type and title" "title"
        && strContains "Missing required parameter: item_keys" "item_keys") = true := by
  refine ⟨?_, ?_, ?_, ?_, rfl⟩
  · intro h
    have hq := lookupField_eq_none_any fields "query" h
    simp [handleCallTool, pyDictGet, lookupField, callToolBody, JVal.isStrEq,
      searchItemsTool, pyContains, hq]
  · intro h
    have hq := lookupField_eq_none_any fields "item_key" h
    simp [handleCallTool, pyDictGet, lookupField, callToolBody, JVal.isStrEq,
      getCitationTool, pyContains, hq]
  · intro h
    rcases h with h | h
    · have hq := lookupField_eq_none_any fields "item_type" h
      simp [handleCallTool, pyDictGet, lookupField, callToolBody, JVal.isStrEq,
        addItemTool, pyContains, hq]
    · have hq := lookupField_eq_none_any fields "title" h
      by_cases ht : fields.any (fun p => p.1 = "item_type")
      · simp [handleCallTool, pyDictGet, lookupField, callToolBody, JVal.isStrEq,
          addItemTool, pyContains, hq, ht]
      · simp [handleCallTool, pyDictGet, lookupField, callToolBody, JVal.isStrEq,
          addItemTool, pyContains, hq, ht]
  · intro h
    have hq := lookupField_eq_none_any fields "item_keys" h
    simp [handleCallTool, pyDictGet, lookupField, callToolBody, JVal.isStrEq,
      getBibliographyTool, pyContains, hq]

/-- C2 witness: with an initialized backend stub and empty arguments,
`search_items` answers `-32602` and makes no backend call. -/
theorem claim_C2_missing_required_args_witness :
    lookupField [] "query" = none
    ∧ handleCallTool (some (constErrZot "E"))
          (.jObj [("name", .jStr "search_items"), ("arguments", .jObj [])])
        = .ok (errResult (-32602) "Missing required parameter: query", []) :=
  ⟨rfl, (claim_C2_missing_required_args (constErrZot "E") []).1 rfl⟩

/-- C3 counterexample: at server start (`self.jsonrpc_id = 0`), an
unparseable input line is answered with an error response whose id is `0`
(the stored `jsonrpc_id`), not null as the claim states. -/
theorem claim_C3_counterexample :
    runLines none (.jNum 0) [.bad "Expecting value: line 1 column 1 (char 0)"]
      = [errEnvelope (-32000)
          "Internal error: Expecting value: line 1 column 1 (char 0)" (.jNum 0)]
    ∧ (errEnvelope (-32000)
          "Internal error: Expecting value: line 1 column 1 (char 0)" (.jNum 0)).get "id"
        = some (.jNum 0)
    ∧ JVal.jNum 0 ≠ JVal.jNull :=
  ⟨rfl, rfl, fun h => JVal.noConfusion h⟩

/-- C3 amended: every parsed object request is answered with a response
whose id equals that request's id field (null when absent); an unparseable
line is answered with the error response carrying the currently stored
`jsonrpc_id` — the id of the most recently dispatched request, `0` at
startup — not null. -/
theorem claim_C3_id_echo (zot : Option Zot) (jid : JVal)
    (fields : List (String × JVal)) (msg : String) :
    (∃ r, (step zot jid (.ok (.jObj fields))).1 = some r ∧
       r.get "id" = some ((lookupField fields "id").getD .jNull))
    ∧ (step zot jid (.bad msg)).1
        = some (errEnvelope (-32000) ("Internal error: " ++ msg) jid) :=
  ⟨step_obj_id zot jid fields, rfl⟩

/-- C4 counterexample: with a backend whose `create_items` succeeds with
key NEWKEY and whose `addto_collection` raises, the whole `add_item`
response is the bare `-32000` error carrying only the association failure:
the created item key appears nowhere in it (no `content` field, and the
message does not contain NEWKEY), indistinguishable in shape from a failed
create call. -/
theorem claim_C4_counterexample :
    handleCallTool
        (some (mkAddItemZot (.jObj [("itemType", .jStr "journalArticle"),
            ("title", .jStr "")])
          (createOkResponse "NEWKEY") (.error "Connection error")))
        (addItemParams "journalArticle" "T" "COLL1")
      = .ok (errResult (-32000) "Error calling tool: Connection error",
          [.itemTemplate (.jStr "journalArticle"),
           .createItems (.jArr [.jObj [("itemType", .jStr "journalArticle"),
              ("title", .jStr "T")]]),
           .addtoCollection (.jStr "COLL1") (.jArr [.jStr "NEWKEY"])])
    ∧ (errResult (-32000) "Error calling tool: Connection error").get "content" = none
    ∧ strContains "Error calling tool: Connection error" "NEWKEY" = false :=
  ⟨rfl, rfl, rfl⟩

/-- C4 amended: with item_type, title and collection_key present and a
create call reporting success with key `k`, the dispatcher performs the
create call followed by exactly one association call with the given
collection key; if that association call fails, the entire response is the
generic `-32000` backend error carrying the association exception message —
the created item key is not reported, and the failure is distinguishable
from a create failure only by the message text. -/
theorem claim_C4_association (tmplFields : List (String × JVal)) (t ti k msg : String) :
    handleCallTool
        (some (mkAddItemZot (.jObj tmplFields) (createOkResponse k) (.error msg)))
        (addItemParams t ti "COLL1")
      = .ok (errResult (-32000) ("Error calling tool: " ++ msg),
          [.itemTemplate (.jStr t),
           .createItems (.jArr [.jObj (setField tmplFields "title" (.jStr ti))]),
           .addtoCollection (.jStr "COLL1") (.jArr [.jStr k])])
    ∧ handleCallTool
        (some (mkAddItemZot (.jObj tmplFields) (createOkResponse k) (.ok .jNull)))
        (addItemParams t ti "COLL1")
      = .ok (contentResult (.jStr (jdump (createOkResponse k))),
          [.itemTemplate (.jStr t),
           .createItems (.jArr [.jObj (setField tmplFields "title" (.jStr ti))]),
           .addtoCollection (.jStr "COLL1") (.jArr [.jStr k])]) :=
  ⟨rfl, rfl⟩

/-- C5 counterexample: `create_collection` is one of the nine tool names
the claim lists, yet `call_tool` answers it with the `-32601` unknown-tool
error, and `list_tools` returns descriptors for only four tools. -/
theorem claim_C5_counterexample :
    handleCallTool (some (constErrZot "E"))
        (.jObj [("name", .jStr "create_collection"), ("arguments", .jObj [])])
      = .ok (errResult (-32601) "Unknown tool: create_collection", [])
    ∧ descriptorNames listToolsResult "tools"
        = [.jStr "search_items", .jStr "get_citation", .jStr "add_item",
           .jStr "get_bibliography"] :=
  ⟨rfl, rfl⟩

/-- C5 amended: `call_tool` resolves exactly the four registered tool names
(search_items, get_citation, add_item, get_bibliography) to bound handlers
— each reaches its argument validation rather than a tool-not-found error —
and `list_tools` returns descriptors for exactly these four; every other
name, including the five the spec lists beyond them (create_collection,
update_item, delete_item, get_item_types, get_item_fields), yields the
`-32601` unknown-tool error. -/
theorem claim_C5_tool_resolution (z : Zot) :
    (∀ s : String,
      s ∉ ["search_items", "get_citation", "add_item", "get_bibliography"] →
      handleCallTool (some z) (.jObj [("name", .jStr s), ("arguments", .jObj [])])
        = .ok (errResult (-32601) ("Unknown tool: " ++ s), []))
    ∧ handleCallTool (some z)
          (.jObj [("name", .jStr "search_items"), ("arguments", .jObj [])])
        = .ok (errResult (-32602) "Missing required parameter: query", [])
    ∧ handleCallTool (some z)
          (.jObj [("name", .jStr "get_citation"), ("arguments", .jObj [])])
        = .ok (errResult (-32602) "Missing required parameter: item_key", [])
    ∧ handleCallTool (some z)
          (.jObj [("name", .jStr "add_item"), ("arguments", .jObj [])])
        = .ok (errResult (-32602) "Missing required parameters: item_type and title", [])
    ∧ handleCallTool (some z)
          (.jObj [("name", .jStr "get_bibliography"), ("arguments", .jObj [])])
        = .ok (errResult (-32602) "Missing required parameter: item_keys", [])
    ∧ descriptorNames listToolsResult "tools"
        = [.jStr "search_items", .jStr "get_citation", .jStr "add_item",
           .jStr "get_bibliography"] := by
  refine ⟨?_, rfl, rfl, rfl, rfl, rfl⟩
  intro s hs
  simp only [List.mem_cons, List.mem_singleton, not_or] at hs
  obtain ⟨h1, h2, h3, h4, -⟩ := hs
  have e : handleCallTool (some z) (.jObj [("name", .jStr s), ("arguments", .jObj [])])
      = (match callToolBody z (.jStr s) (.jObj []) with
         | (.ok result, tr) => .ok (result, tr)
         | (.error e, tr) =>
           .ok (errResult (-32000) ("Error calling tool: " ++ e), tr)) := rfl
  rw [e]
  unfold callToolBody
  simp [JVal.isStrEq, h1, h2, h3, h4, pyStr]

/-- C5 witness: `update_item` (one of the five unregistered names) answers
with the unknown-tool error. -/
theorem claim_C5_tool_resolution_witness :
    handleCallTool (some (constErrZot "E"))
        (.jObj [("name", .jStr "update_item"), ("arguments", .jObj [])])
      = .ok (errResult (-32601) "Unknown tool: update_item", []) :=
  (claim_C5_tool_resolution (constErrZot "E")).1 "update_item" (by decide)

/-- C6: the loop emits exactly one response per request unit (non-blank
line) and none for skipped blanks; processing any line — including one
answered with an error response — is followed by processing the remaining
lines in order; and every emitted response is a well-formed unit (version
tag, id, exactly one of result/error). -/
theorem claim_C6_loop_discipline (zot : Option Zot) (jid : JVal) :
    (∀ lines, (runLines zot jid lines).length = (lines.filter isRequestUnit).length)
    ∧ (∀ line rest, runLines zot jid (line :: rest)
        = ((step zot jid line).1).toList ++ runLines zot (step zot jid line).2.1 rest)
    ∧ (∀ line, isRequestUnit line = true → ((step zot jid line).1).isSome = true)
    ∧ (∀ lines r, r ∈ runLines zot jid lines → wellFormedResponse r = true) :=
  ⟨runLines_length zot jid, runLines_cons zot jid, step_emits_of_unit zot jid,
   fun lines r h => runLines_wellFormed zot jid lines r h⟩

/-- C6 witness: a malformed line, a parsed request, and a blank line yield
exactly two responses, and the first response is well-formed. -/
theorem claim_C6_loop_discipline_witness :
    (runLines none (.jNum 0)
        [.bad "x", .ok (.jObj [("id", .jNum 1)]), .blank]).length
      = ([RawLine.bad "x", RawLine.ok (.jObj [("id", .jNum 1)]),
          RawLine.blank].filter isRequestUnit).length
    ∧ ((step (none : Option Zot) (.jNum 0) (.bad "x")).1).isSome = true
    ∧ wellFormedResponse (errEnvelope (-32000) "Internal error: x" (.jNum 0)) = true :=
  ⟨(claim_C6_loop_discipline none (.jNum 0)).1
      [.bad "x", .ok (.jObj [("id", .jNum 1)]), .blank],
   (claim_C6_loop_discipline none (.jNum 0)).2.2.1 (.bad "x") rfl,
   (claim_C6_loop_discipline none (.jNum 0)).2.2.2 [.bad "x"]
      (errEnvelope (-32000) "Internal error: x" (.jNum 0))
      (List.mem_singleton.mpr rfl)⟩

/-- C7: when the client handle was never initialized — no API key (unset or
empty), no library id, or a constructor exception — `self.zot` is `None`,
and then both `read_resource` and `call_tool` answer every URI and every
tool name with the structured backend-unavailable error, make no backend
call, and raise nothing. -/
theorem claim_C7_backend_unavailable :
    (∀ uid gid mk, initZoteroClient none uid gid mk = none)
    ∧ (∀ uid gid mk, initZoteroClient (some "") uid gid mk = none)
    ∧ (∀ mk, initZoteroClient (some "KEY") none none mk = none)
    ∧ (∀ gid e, initZoteroClient (some "KEY") (some "12345") gid
        (fun _ _ _ => .error e) = none)
    ∧ (∀ e, initZoteroClient (some "KEY") none (some "67890")
        (fun _ _ _ => .error e) = none)
    ∧ (∀ u, handleReadResource none (.jObj [("uri", u)]) = .ok (zotNotInitResult, []))
    ∧ (∀ n args, handleCallTool none (.jObj [("name", n), ("arguments", args)])
        = .ok (zotNotInitResult, [])) :=
  ⟨fun _ _ _ => rfl, fun _ _ _ => rfl, fun _ => rfl, fun _ _ => rfl, fun _ => rfl,
   fun _ => rfl, fun _ _ => rfl⟩

/-- With an initialized client, `call_tool` always answers `.ok` and its
backend-call trace is the tool body's trace. -/
theorem handleCallTool_trace (z : Zot) (tn args : JVal) :
    ∃ res, handleCallTool (some z) (.jObj [("name", tn), ("arguments", args)])
      = .ok (res, (callToolBody z tn args).2) := by
  have h : handleCallTool (some z) (.jObj [("name", tn), ("arguments", args)])
      = (match callToolBody z tn args with
         | (.ok result, tr) => .ok (result, tr)
         | (.error e, tr) =>
           .ok (errResult (-32000) ("Error calling tool: " ++ e), tr)) := rfl
  rw [h]
  rcases hb : callToolBody z tn args with ⟨out, tr⟩
  cases out <;> exact ⟨_, rfl⟩

/-- C8: for each of the three registered static URIs, a backend call that
returns normally makes `read_resource` answer a `contents` array of exactly
one item (hence length at least 1); and in general every successful
(non-error) `read_resource` or `call_tool` result carries a singleton
`contents`/`content` array — never an empty one. -/
theorem claim_C8_nonempty_contents (z : Zot) :
    (∀ v, z .collections = .ok v →
      handleReadResource (some z) (.jObj [("uri", .jStr "zotero://collections")])
        = .ok (contentsResult "zotero://collections" "application/json"
            (.jStr (jdump v)), [.collections]))
    ∧ (∀ v, z (.top 50) = .ok v →
      handleReadResource (some z) (.jObj [("uri", .jStr "zotero://items/top")])
        = .ok (contentsResult "zotero://items/top" "application/json"
            (.jStr (jdump v)), [.top 50]))
    ∧ (∀ v, z (.itemsRecent 20 "dateModified" "desc") = .ok v →
      handleReadResource (some z) (.jObj [("uri", .jStr "zotero://items/recent")])
        = .ok (contentsResult "zotero://items/recent" "application/json"
            (.jStr (jdump v)), [.itemsRecent 20 "dateModified" "desc"]))
    ∧ (∀ params out tr, handleReadResource (some z) params = .ok (out, tr) →
        out.get "error" = none → ∃ c, out.get "contents" = some (.jArr [c]))
    ∧ (∀ params out tr, handleCallTool (some z) params = .ok (out, tr) →
        out.get "error" = none → ∃ c, out.get "content" = some (.jArr [c])) := by
  refine ⟨?_, ?_, ?_,
    fun params out tr h hs => handleReadResource_success_shape (some z) params out tr h hs,
    fun params out tr h hs => handleCallTool_success_shape (some z) params out tr h hs⟩
  · intro v hv
    have h : handleReadResource (some z) (.jObj [("uri", .jStr "zotero://collections")])
        = (match readResourceStr z "zotero://collections" with
           | (.ok result, tr) => .ok (result, tr)
           | (.error e, tr) =>
             .ok (errResult (-32000) ("Error reading resource: " ++ e), tr)) := rfl
    have h2 : readResourceStr z "zotero://collections"
        = (match z .collections with
           | .ok collections =>
             (.ok (contentsResult "zotero://collections" "application/json"
               (.jStr (jdump collections))), [ZCall.collections])
           | .error e => (.error e, [ZCall.collections])) := rfl
    rw [h, h2, hv]
  · intro v hv
    have h : handleReadResource (some z) (.jObj [("uri", .jStr "zotero://items/top")])
        = (match readResourceStr z "zotero://items/top" with
           | (.ok result, tr) => .ok (result, tr)
           | (.error e, tr) =>
             .ok (errResult (-32000) ("Error reading resource: " ++ e), tr)) := rfl
    have h2 : readResourceStr z "zotero://items/top"
        = (match z (.top 50) with
           | .ok items =>
             (.ok (contentsResult "zotero://items/top" "application/json"
               (.jStr (jdump items))), [ZCall.top 50])
           | .error e => (.error e, [ZCall.top 50])) := rfl
    rw [h, h2, hv]
  · intro v hv
    have h : handleReadResource (some z) (.jObj [("uri", .jStr "zotero://items/recent")])
        = (match readResourceStr z "zotero://items/recent" with
           | (.ok result, tr) => .ok (result, tr)
           | (.error e, tr) =>
             .ok (errResult (-32000) ("Error reading resource: " ++ e), tr)) := rfl
    have h2 : readResourceStr z "zotero://items/recent"
        = (match z (.itemsRecent 20 "dateModified" "desc") with
           | .ok items =>
             (.ok (contentsResult "zotero://items/recent" "application/json"
               (.jStr (jdump items))), [ZCall.itemsRecent 20 "dateModified" "desc"])
           | .error e => (.error e, [ZCall.itemsRecent 20 "dateModified" "desc"])) := rfl
    rw [h, h2, hv]

/-- C8 witness: with a backend that answers every call with `null`, reading
`zotero://collections` yields the singleton contents array. -/
theorem claim_C8_nonempty_contents_witness :
    handleReadResource (some (constOkZot .jNull))
        (.jObj [("uri", .jStr "zotero://collections")])
      = .ok (contentsResult "zotero://collections" "application/json"
          (.jStr (jdump .jNull)), [.collections])
    ∧ ∃ c, (contentsResult "zotero://collections" "application/json"
          (.jStr (jdump .jNull))).get "contents" = some (.jArr [c]) :=
  ⟨(claim_C8_nonempty_contents (constOkZot .jNull)).1 .jNull rfl,
   (claim_C8_nonempty_contents (constOkZot .jNull)).2.2.2.1
      (.jObj [("uri", .jStr "zotero://collections")]) _ _
      ((claim_C8_nonempty_contents (constOkZot .jNull)).1 .jNull rfl) rfl⟩

/-- C9: omitting `style` in `get_citation` or `get_bibliography` produces
exactly the same dispatcher behaviour (same response, same backend calls)
as passing `style="apa"`, and omitting `limit` in `search_items` the same
as passing `limit=20`; moreover with `style` omitted the backend citation
call itself already carries `"apa"` — the default is applied at the
dispatcher boundary, before the adapter is invoked. -/
theorem claim_C9_default_arguments (z : Zot) (fields : List (String × JVal)) :
    (lookupField fields "style" = none →
      handleCallTool (some z)
          (.jObj [("name", .jStr "get_citation"), ("arguments", .jObj fields)])
        = handleCallTool (some z)
          (.jObj [("name", .jStr "get_citation"),
                  ("arguments", .jObj (fields ++ [("style", .jStr "apa")]))]))
    ∧ (lookupField fields "style" = none →
      handleCallTool (some z)
          (.jObj [("name", .jStr "get_bibliography"), ("arguments", .jObj fields)])
        = handleCallTool (some z)
          (.jObj [("name", .jStr "get_bibliography"),
                  ("arguments", .jObj (fields ++ [("style", .jStr "apa")]))]))
    ∧ (lookupField fields "limit" = none →
      handleCallTool (some z)
          (.jObj [("name", .jStr "search_items"), ("arguments", .jObj fields)])
        = handleCallTool (some z)
          (.jObj [("name", .jStr "search_items"),
                  ("arguments", .jObj (fields ++ [("limit", .jNum 20)]))]))
    ∧ (∀ k, lookupField fields "style" = none → lookupField fields "item_key" = some k →
      ∃ res, handleCallTool (some z)
          (.jObj [("name", .jStr "get_citation"), ("arguments", .jObj fields)])
        = .ok (res, [ZCall.itemCitation k (.jStr "apa")])) := by
  refine ⟨?_, ?_, ?_, ?_⟩
  · intro h
    have e1 : handleCallTool (some z)
        (.jObj [("name", .jStr "get_citation"), ("arguments", .jObj fields)])
        = (match getCitationTool z (.jObj fields) with
           | (.ok result, tr) => .ok (result, tr)
           | (.error e, tr) =>
             .ok (errResult (-32000) ("Error calling tool: " ++ e), tr)) := rfl
    have e2 : handleCallTool (some z)
        (.jObj [("name", .jStr "get_citation"),
                ("arguments", .jObj (fields ++ [("style", .jStr "apa")]))])
        = (match getCitationTool z (.jObj (fields ++ [("style", .jStr "apa")])) with
           | (.ok result, tr) => .ok (result, tr)
           | (.error e, tr) =>
             .ok (errResult (-32000) ("Error calling tool: " ++ e), tr)) := rfl
    rw [e1, e2, getCitationTool_style_default z fields h]
  · intro h
    have e1 : handleCallTool (some z)
        (.jObj [("name", .jStr "get_bibliography"), ("arguments", .jObj fields)])
        = (match getBibliographyTool z (.jObj fields) with
           | (.ok result, tr) => .ok (result, tr)
           | (.error e, tr) =>
             .ok (errResult (-32000) ("Error calling tool: " ++ e), tr)) := rfl
    have e2 : handleCallTool (some z)
        (.jObj [("name", .jStr "get_bibliography"),
                ("arguments", .jObj (fields ++ [("style", .jStr "apa")]))])
        = (match getBibliographyTool z (.jObj (fields ++ [("style", .jStr "apa")])) with
           | (.ok result, tr) => .ok (result, tr)
           | (.error e, tr) =>
             .ok (errResult (-32000) ("Error calling tool: " ++ e), tr)) := rfl
    rw [e1, e2, getBibliographyTool_style_default z fields h]
  · intro h
    have e1 : handleCallTool (some z)
        (.jObj [("name", .jStr "search_items"), ("arguments", .jObj fields)])
        = (match searchItemsTool z (.jObj fields) with
           | (.ok result, tr) => .ok (result, tr)
           | (.error e, tr) =>
             .ok (errResult (-32000) ("Error calling tool: " ++ e), tr)) := rfl
    have e2 : handleCallTool (some z)
        (.jObj [("name", .jStr "search_items"),
                ("arguments", .jObj (fields ++ [("limit", .jNum 20)]))])
        = (match searchItemsTool z (.jObj (fields ++ [("limit", .jNum 20)])) with
           | (.ok result, tr) => .ok (result, tr)
           | (.error e, tr) =>
             .ok (errResult (-32000) ("Error calling tool: " ++ e), tr)) := rfl
    rw [e1, e2, searchItemsTool_limit_default z fields h]
  · intro k hst hik
    obtain ⟨res, hres⟩ := handleCallTool_trace z (.jStr "get_citation") (.jObj fields)
    have htr : (callToolBody z (.jStr "get_citation") (.jObj fields)).2
        = [ZCall.itemCitation k (.jStr "apa")] := by
      have hb : callToolBody z (.jStr "get_citation") (.jObj fields)
          = getCitationTool z (.jObj fields) := rfl
      rw [hb]
      exact getCitationTool_default_trace z fields k hst hik
    rw [htr] at hres
    exact ⟨res, hres⟩

/-- C9 witness: with item_key K and no style key, the dispatcher behaves as
with an explicit `style="apa"`, and the backend call carries `"apa"`. -/
theorem claim_C9_default_arguments_witness :
    handleCallTool (some (constErrZot "E"))
        (.jObj [("name", .jStr "get_citation"),
                ("arguments", .jObj [("item_key", .jStr "K")])])
      = handleCallTool (some (constErrZot "E"))
        (.jObj [("name", .jStr "get_citation"),
                ("arguments", .jObj ([("item_key", .jStr "K")]
                    ++ [("style", .jStr "apa")]))])
    ∧ ∃ res, handleCallTool (some (constErrZot "E"))
        (.jObj [("name", .jStr "get_citation"),
                ("arguments", .jObj [("item_key", .jStr "K")])])
      = .ok (res, [ZCall.itemCitation (.jStr "K") (.jStr "apa")]) :=
  ⟨(claim_C9_default_arguments (constErrZot "E") [("item_key", .jStr "K")]).1 rfl,
   (claim_C9_default_arguments (constErrZot "E") [("item_key", .jStr "K")]).2.2.2
      (.jStr "K") rfl rfl⟩

/-- C10: in `add_item`, after the title is set (and creators when given),
every `additional_fields` pair is written into the template in order with
no key filtering — the payload of the backend create call is exactly the
template with all those writes applied; in particular a `"title"` key in
`additional_fields` overwrites the `title` argument in that payload, and
every key of `additional_fields` is present in it. -/
theorem claim_C10_additional_fields_overwrite (tmplFields afs : List (String × JVal))
    (t ti : String) (resp : JVal) :
    handleCallTool (some (mkAddItemZot (.jObj tmplFields) resp (.ok .jNull)))
        (.jObj [("name", .jStr "add_item"),
                ("arguments", .jObj [("item_type", .jStr t), ("title", .jStr ti),
                                     ("additional_fields", .jObj afs)])])
      = .ok (contentResult (.jStr (jdump resp)),
          [.itemTemplate (.jStr t),
           .createItems (.jArr
             [.jObj (buildItemFields tmplFields (.jStr ti) (.jArr []) afs)])])
    ∧ (∀ l1 l2 v, afs = l1 ++ ("title", v) :: l2 → (∀ p ∈ l2, p.1 ≠ "title") →
        lookupField (buildItemFields tmplFields (.jStr ti) (.jArr []) afs) "title"
          = some v)
    ∧ (∀ k, (∃ v, (k, v) ∈ afs) →
        ∃ w, lookupField (buildItemFields tmplFields (.jStr ti) (.jArr []) afs) k
          = some w) := by
  refine ⟨rfl, ?_, ?_⟩
  · intro l1 l2 v heq hnot
    subst heq
    exact lookupField_writeFields_last l1 l2
      (setField tmplFields "title" (.jStr ti)) "title" v hnot
  · intro k hk
    exact lookupField_writeFields_mem afs
      (setField tmplFields "title" (.jStr ti)) k hk

/-- C10 witness: with `additional_fields = \x7b"title": "OVERRIDE"\x7d`, the
payload's title is OVERRIDE, not the `title` argument T. -/
theorem claim_C10_additional_fields_overwrite_witness :
    handleCallTool
        (some (mkAddItemZot (.jObj [("itemType", .jStr "journalArticle"),
            ("title", .jStr "")]) (.jBool true) (.ok .jNull)))
        (.jObj [("name", .jStr "add_item"),
                ("arguments", .jObj [("item_type", .jStr "journalArticle"),
                                     ("title", .jStr "T"),
                                     ("additional_fields",
                                      .jObj [("title", .jStr "OVERRIDE")])])])
      = .ok (contentResult (.jStr (jdump (.jBool true))),
          [.itemTemplate (.jStr "journalArticle"),
           .createItems (.jArr
             [.jObj (buildItemFields [("itemType", .jStr "journalArticle"),
                ("title", .jStr "")] (.jStr "T") (.jArr [])
                [("title", .jStr "OVERRIDE")])])])
    ∧ lookupField (buildItemFields [("itemType", .jStr "journalArticle"),
          ("title", .jStr "")] (.jStr "T") (.jArr [])
          [("title", .jStr "OVERRIDE")]) "title" = some (.jStr "OVERRIDE") :=
  ⟨(claim_C10_additional_fields_overwrite
      [("itemType", .jStr "journalArticle"), ("title", .jStr "")]
      [("title", .jStr "OVERRIDE")] "journalArticle" "T" (.jBool true)).1,
   (claim_C10_additional_fields_overwrite
      [("itemType", .jStr "journalArticle"), ("title", .jStr "")]
      [("title", .jStr "OVERRIDE")] "journalArticle" "T" (.jBool true)).2.1
      [] [] (.jStr "OVERRIDE") rfl (fun p hp => absurd hp (List.not_mem_nil p))⟩

end ZoteroMCP
